import Mathlib

set_option maxRecDepth 100000

/-!
Verification development for the RTD client subsystem of the
tos-streamlit-dashboard repository: the quote-normalization logic
(src/utils/quote.py), topic identity (src/utils/topic.py), the connection
state machine and decorators (src/core/error_handler.py), the RTD client
(src/rtd/client.py) and the worker (src/rtd/rtd_worker.py) are embedded
shallowly as executable Lean definitions, and the testable properties of
the specification are settled against them.

Modelling conventions:
- Python floats are modelled as exact rationals; every numeric value the
  properties touch is exactly representable in binary, so no rounding gap
  arises.
- Wall-clock timestamps, logging, sleeping and COM initialisation are
  side effects without influence on the data flow of any property and are
  omitted.
- Locks serialize the critical sections; the embedding models the
  serialized (single-interleaving) semantics of each method body.
- Exceptions are modelled with `Except`; the external COM provider is a
  parameter supplying one response per provider entry point.
-/

/-! ### Character/string helpers (apostrophe, percent, etc. built by code) -/

/-- The single-quote character, `chr(39)`. -/
def quoteChar : Char := Char.ofNat 39

/-- The single-quote as a string (Python single-quote literal). -/
def quoteStr : String := String.singleton quoteChar

/-- The percent character `chr(37)`. -/
def pctChar : Char := Char.ofNat 37

/-- The digit five character `chr(53)`, used by the Treasury-format tick test. -/
def digit5 : Char := Char.ofNat 53

/-- The colon character `chr(58)`. -/
def colonChar : Char := Char.ofNat 58

/-- The dot character `chr(46)`. -/
def dotChar : Char := Char.ofNat 46

/-- `needle` is an initial segment of `hay` (character lists). -/
def leadMatch : List Char → List Char → Bool
  | [], _ => true
  | _ :: _, [] => false
  | a :: as, b :: bs => a == b && leadMatch as bs

/-- `needle` occurs contiguously somewhere in `hay` (character lists). -/
def containsSub : List Char → List Char → Bool
  | [], needle => needle.isEmpty
  | h :: rest, needle => leadMatch needle (h :: rest) || containsSub rest needle

/-- `True` iff `needle` occurs as a contiguous substring of `hay`
(Python `needle in hay`). -/
def containsStr (hay needle : String) : Bool :=
  containsSub hay.toList needle.toList

/-- Python `s.startswith(pre)`. -/
def strStartsWith (s pre : String) : Bool :=
  leadMatch pre.toList s.toList

/-- ASCII upper-casing of one character. -/
def upperChar (c : Char) : Char :=
  if 97 ≤ c.toNat && c.toNat ≤ 122 then Char.ofNat (c.toNat - 32) else c

/-- Python `s.upper()` (the modelled strings are ASCII). -/
def strUpper (s : String) : String :=
  String.mk (s.toList.map upperChar)

/-! ### MD5 (hashlib.md5), needed by `generate_topic_id`

A faithful executable MD5 over byte lists (bytes are `Nat < 256`,
words are `Nat < 2^32` with explicit `% 2^32`). -/

/-- `2^32`, the word modulus. -/
def M32 : Nat := 4294967296

/-- Bitwise complement within 32 bits (argument below `2^32`). -/
def compl32 (x : Nat) : Nat := 4294967295 - x

/-- 32-bit left rotation by `s` (for `x < 2^32`, `0 < s < 32`). -/
def leftrotate (x s : Nat) : Nat := (x * 2 ^ s) % M32 + x / 2 ^ (32 - s)

/-- MD5 round constants `K[i] = floor(2^32 * abs(sin(i+1)))`. -/
def md5K : List Nat :=
  [3614090360, 3905402710, 606105819, 3250441966, 4118548399, 1200080426,
   2821735955, 4249261313, 1770035416, 2336552879, 4294925233, 2304563134,
   1804603682, 4254626195, 2792965006, 1236535329, 4129170786, 3225465664,
   643717713, 3921069994, 3593408605, 38016083, 3634488961, 3889429448,
   568446438, 3275163606, 4107603335, 1163531501, 2850285829, 4243563512,
   1735328473, 2368359562, 4294588738, 2272392833, 1839030562, 4259657740,
   2763975236, 1272893353, 4139469664, 3200236656, 681279174, 3936430074,
   3572445317, 76029189, 3654602809, 3873151461, 530742520, 3299628645,
   4096336452, 1126891415, 2878612391, 4237533241, 1700485571, 2399980690,
   4293915773, 2240044497, 1873313359, 4264355552, 2734768916, 1309151649,
   4149444226, 3174756917, 718787259, 3951481745]

/-- MD5 per-round shift amounts. -/
def md5S : List Nat :=
  [7, 12, 17, 22, 7, 12, 17, 22, 7, 12, 17, 22, 7, 12, 17, 22,
   5, 9, 14, 20, 5, 9, 14, 20, 5, 9, 14, 20, 5, 9, 14, 20,
   4, 11, 16, 23, 4, 11, 16, 23, 4, 11, 16, 23, 4, 11, 16, 23,
   6, 10, 15, 21, 6, 10, 15, 21, 6, 10, 15, 21, 6, 10, 15, 21]

/-- One MD5 round on state `(a, b, c, d)` with message words `M`. -/
def md5Round (M : List Nat) (st : Nat × Nat × Nat × Nat) (i : Nat) :
    Nat × Nat × Nat × Nat :=
  let a := st.1
  let b := st.2.1
  let c := st.2.2.1
  let d := st.2.2.2
  let fg : Nat × Nat :=
    if i < 16 then (Nat.lor (Nat.land b c) (Nat.land (compl32 b) d), i)
    else if i < 32 then (Nat.lor (Nat.land d b) (Nat.land (compl32 d) c), (5 * i + 1) % 16)
    else if i < 48 then (Nat.xor b (Nat.xor c d), (3 * i + 5) % 16)
    else (Nat.xor c (Nat.lor b (compl32 d)), (7 * i) % 16)
  let f2 := (fg.1 + a + md5K.getD i 0 + M.getD fg.2 0) % M32
  (d, (b + leftrotate f2 (md5S.getD i 0)) % M32, b, c)

/-- Process one 16-word MD5 chunk, updating the running state. -/
def md5Chunk (st : Nat × Nat × Nat × Nat) (M : List Nat) :
    Nat × Nat × Nat × Nat :=
  let r := (List.range 64).foldl (md5Round M) st
  ((st.1 + r.1) % M32, (st.2.1 + r.2.1) % M32,
   (st.2.2.1 + r.2.2.1) % M32, (st.2.2.2 + r.2.2.2) % M32)

/-- `count` little-endian bytes of `n`. -/
def toLEBytes (n : Nat) : Nat → List Nat
  | 0 => []
  | k + 1 => n % 256 :: toLEBytes (n / 256) k

/-- MD5 padding: append `0x80`, zeros to 56 mod 64, then the bit length
as 8 little-endian bytes. -/
def md5Pad (msg : List Nat) : List Nat :=
  let l := msg.length
  let m := (l + 1) % 64
  let k := (120 - m) % 64
  msg ++ [128] ++ List.replicate k 0 ++ toLEBytes ((8 * l) % 2 ^ 64) 8

/-- Group bytes into 32-bit little-endian words. -/
def bytesToWords : List Nat → List Nat
  | b0 :: b1 :: b2 :: b3 :: rest =>
      (b0 + 256 * b1 + 65536 * b2 + 16777216 * b3) :: bytesToWords rest
  | _ => []

/-- Group words into 16-word chunks. -/
def wordsToBlocks : List Nat → List (List Nat)
  | w0 :: w1 :: w2 :: w3 :: w4 :: w5 :: w6 :: w7 ::
    w8 :: w9 :: w10 :: w11 :: w12 :: w13 :: w14 :: w15 :: rest =>
      [w0, w1, w2, w3, w4, w5, w6, w7, w8, w9, w10, w11, w12, w13, w14, w15]
        :: wordsToBlocks rest
  | _ => []

/-- The 16 digest bytes of MD5 of a byte message. -/
def md5Digest (msg : List Nat) : List Nat :=
  let blocks := wordsToBlocks (bytesToWords (md5Pad msg))
  let r := blocks.foldl md5Chunk (1732584193, 4023233417, 2562383102, 271733878)
  toLEBytes r.1 4 ++ toLEBytes r.2.1 4 ++ toLEBytes r.2.2.1 4 ++ toLEBytes r.2.2.2 4

/-- `int(hashlib.md5(msg).hexdigest(), 16)`: the digest bytes read as one
big-endian integer. -/
def md5Int (msg : List Nat) : Nat :=
  (md5Digest msg).foldl (fun acc b => acc * 256 + b) 0

/-- UTF-8 encoding of one code point (as `str.encode()` does per character). -/
def utf8EncodeChar (c : Char) : List Nat :=
  let n := c.toNat
  if n < 128 then [n]
  else if n < 2048 then [192 + n / 64, 128 + n % 64]
  else if n < 65536 then [224 + n / 4096, 128 + n / 64 % 64, 128 + n % 64]
  else [240 + n / 262144, 128 + n / 4096 % 64, 128 + n / 64 % 64, 128 + n % 64]

/-- `s.encode()`: UTF-8 bytes of a string. -/
def utf8Bytes (s : String) : List Nat :=
  (s.toList.map utf8EncodeChar).flatten

/-! ### src/utils/topic.py -/

/-- `generate_topic_id` (src/utils/topic.py): the MD5 of the string
`"{quote_type}:{symbol}"` read as an integer, folded by `% (2**16)`. -/
def generate_topic_id (quote_type symbol : String) : Nat :=
  md5Int (utf8Bytes (quote_type ++ ":" ++ symbol)) % 2 ^ 16

/-! ### QuoteType (config/quote_types.py)

Modelled from the spec: `config/quote_types.py` is not under src/; the spec
(sections 3 and 4.2) and the uses in src/utils/quote.py and
src/rtd/rtd_worker.py determine an enum of the sixteen members referenced by
the code, whose `.value` strings round-trip through `QuoteType[name.upper()]`
(so the value string equals the member name). -/

inductive QuoteType where
  | LAST | BID | ASK | HIGH | LOW | OPEN | CLOSE | MARK | DELTA | GAMMA
  | VOLUME | ASK_SIZE | BID_SIZE | LAST_SIZE | OPEN_INT | IMPL_VOL
deriving DecidableEq, Fintype, Repr

/-- Member name of a `QuoteType` (its Python enum name). -/
def QuoteType.name : QuoteType → String
  | .LAST => "LAST" | .BID => "BID" | .ASK => "ASK" | .HIGH => "HIGH"
  | .LOW => "LOW" | .OPEN => "OPEN" | .CLOSE => "CLOSE" | .MARK => "MARK"
  | .DELTA => "DELTA" | .GAMMA => "GAMMA" | .VOLUME => "VOLUME"
  | .ASK_SIZE => "ASK_SIZE" | .BID_SIZE => "BID_SIZE"
  | .LAST_SIZE => "LAST_SIZE" | .OPEN_INT => "OPEN_INT"
  | .IMPL_VOL => "IMPL_VOL"

/-- `.value` of a `QuoteType` member (modelled from the spec: equal to the
member name, forced by `QuoteType[stored_value.upper()]` round-trips in
src/utils/quote.py). -/
def QuoteType.value (q : QuoteType) : String := q.name

/-- The members of the enum in declaration order. -/
def QuoteType.members : List QuoteType :=
  [.LAST, .BID, .ASK, .HIGH, .LOW, .OPEN, .CLOSE, .MARK, .DELTA, .GAMMA,
   .VOLUME, .ASK_SIZE, .BID_SIZE, .LAST_SIZE, .OPEN_INT, .IMPL_VOL]

/-- `QuoteType[s]`: lookup of a member by exact name. -/
def QuoteType.fromName (s : String) : Option QuoteType :=
  QuoteType.members.find? (fun q : QuoteType => q.name == s)

/-! ### Python values

A small universe of Python scalar/sequence values as they cross the COM
boundary, with Python truthiness and `==`. -/

inductive PyVal where
  | none
  | bool (b : Bool)
  | int (n : Int)
  | float (q : Rat)
  | str (s : String)
  | list (xs : List PyVal)
  | tuple (xs : List PyVal)

/-- Python `is None`. -/
def PyVal.isNone : PyVal → Bool
  | .none => true
  | _ => false

/-- Python truthiness `bool(v)`. -/
def PyVal.truthy : PyVal → Bool
  | .none => false
  | .bool b => b
  | .int n => n != 0
  | .float q => q != 0
  | .str s => s.length != 0
  | .list xs => !xs.isEmpty
  | .tuple xs => !xs.isEmpty

/-- Numeric view of a Python value (`bool` counts as `0`/`1`). -/
def PyVal.asNum : PyVal → Option Rat
  | .bool b => some (if b then 1 else 0)
  | .int n => some (n : Rat)
  | .float q => some q
  | _ => Option.none

mutual
/-- Python `==` on the modelled values (numeric types compare across kinds,
sequences compare elementwise, a list never equals a tuple). -/
def pyEq : PyVal → PyVal → Bool
  | .none, .none => true
  | .str a, .str b => a == b
  | .list a, .list b => pyEqList a b
  | .tuple a, .tuple b => pyEqList a b
  | a, b =>
    match a.asNum, b.asNum with
    | some x, some y => x == y
    | _, _ => false

/-- Elementwise Python `==` on sequences. -/
def pyEqList : List PyVal → List PyVal → Bool
  | [], [] => true
  | x :: xs, y :: ys => pyEq x y && pyEqList xs ys
  | _, _ => false
end

/-! ### src/utils/quote.py -/

/-- Digit test for a character. -/
def isDigitChar (c : Char) : Bool := 48 ≤ c.toNat && c.toNat ≤ 57

/-- Numeric value of a digit list. -/
def digitsToNat (cs : List Char) : Nat :=
  cs.foldl (fun a c => a * 10 + (c.toNat - 48)) 0

/-- Split a character list on a separator character. -/
def splitOnChar (sep : Char) (cs : List Char) : List (List Char) :=
  cs.foldr
    (fun c acc =>
      match acc with
      | [] => if c = sep then [[], []] else [[c]]
      | g :: gs => if c = sep then [] :: g :: gs else (c :: g) :: gs)
    [[]]

/-- Python `float(s)` on the decimal subset the provider emits:
optional sign, digits with at most one dot, at least one digit
(the exponent/infinity/nan forms never occur in the modelled data and are
not part of this subset; on them, as on every other malformed string, the
result is `none`, Python ValueError). -/
def pyFloatOfList (cs : List Char) : Option Rat :=
  let body :=
    match cs with
    | c :: rest =>
        if c = Char.ofNat 43 then (rest, (1 : Rat))
        else if c = Char.ofNat 45 then (rest, (-1 : Rat))
        else (cs, (1 : Rat))
    | [] => ([], (1 : Rat))
  match splitOnChar dotChar body.1 with
  | [ip] =>
      if ip.all isDigitChar && !ip.isEmpty then some (body.2 * digitsToNat ip)
      else Option.none
  | [ip, fp] =>
      if (ip.all isDigitChar && fp.all isDigitChar) && (!ip.isEmpty || !fp.isEmpty) then
        some (body.2 * ((digitsToNat ip : Rat) + (digitsToNat fp : Rat) / 10 ^ fp.length))
      else Option.none
  | _ => Option.none

/-- Python `float(v)` on non-string values (TypeError gives `none`). -/
def pyFloat (v : PyVal) : Option Rat :=
  match v with
  | .str s => pyFloatOfList s.toList
  | .bool b => some (if b then 1 else 0)
  | .int n => some (n : Rat)
  | .float q => some q
  | _ => Option.none

/-- Truncation toward zero, Python `int(float)`. -/
def truncRat (q : Rat) : Int := Int.tdiv q.num (q.den : Int)

/-- Strip trailing percent characters, Python `value.rstrip(chr(37))`. -/
def rstripPercentL (cs : List Char) : List Char :=
  (cs.reverse.dropWhile (fun c => c = pctChar)).reverse

/-- `Quote._to_float` (src/utils/quote.py lines 49-90): Treasury fractional
notation `whole-quote-ticks` becomes `whole + ticks32 / 32` where `ticks32`
is the first two tick digits plus one half when a third digit five follows;
otherwise trailing percent signs are stripped and the string parsed as a
float; conversion failure yields `none`. The `percentage` flag is accepted
and, as in the source, unused. -/
def Quote.toFloat (value : PyVal) (_percentage : Bool) : Option Rat :=
  match value with
  | .str s =>
      if s.toList.contains quoteChar then
        match splitOnChar quoteChar s.toList with
        | [whole, ticks] =>
            match pyFloatOfList whole, pyFloatOfList (ticks.take 2) with
            | some w, some t =>
                let t2 := if 2 < ticks.length ∧ ticks.getD 2 dotChar = digit5
                  then t + 1 / 2 else t
                some (w + t2 / 32)
            | _, _ => Option.none
        | _ => Option.none
      else pyFloatOfList (rstripPercentL s.toList)
  | v => pyFloat v

/-- `Quote._to_int` (src/utils/quote.py lines 92-97): `int(float(value))`,
`none` on conversion failure. -/
def Quote.toInt (value : PyVal) : Option Int :=
  (pyFloat value).map truncRat

/-- The float-valued price/greek quote types of `_process_value`. -/
def floatQuoteTypes : List QuoteType :=
  [.LAST, .BID, .ASK, .HIGH, .LOW, .OPEN, .CLOSE, .MARK, .DELTA, .GAMMA]

/-- The integer-valued size/volume quote types of `_process_value`. -/
def intQuoteTypes : List QuoteType :=
  [.VOLUME, .ASK_SIZE, .BID_SIZE, .LAST_SIZE, .OPEN_INT]

/-- Round half to even at integer precision (Python `round` tie behaviour). -/
def roundHalfEven (q : Rat) : Int :=
  let f := Int.floor q
  let frac := q - f
  if frac < 1 / 2 then f
  else if 1 / 2 < frac then f + 1
  else if f % 2 = 0 then f else f + 1

/-- Python `round(x, 4)` on the exact-rational float model. -/
def round4 (q : Rat) : Rat := (roundHalfEven (q * 10000) : Rat) / 10000

/-- Lift an optional float to a Python value (`none` for conversion failure,
which `_process_value` passes through as an absent value). -/
def optFloat : Option Rat → PyVal
  | some q => .float q
  | Option.none => .none

/-- Lift an optional int likewise. -/
def optInt : Option Int → PyVal
  | some n => .int n
  | Option.none => .none

/-- `Quote._process_value` (src/utils/quote.py lines 25-36): `None` and the
provider sentinels map to `None`; price fields parse as floats, size fields
as ints, implied volatility as a percentage rounded to 4 decimals; any other
quote type passes the value through unchanged. -/
def Quote.processValue (qt : QuoteType) (value : PyVal) : PyVal :=
  if value.isNone || pyEq value (.str "N/A") || pyEq value (.str "!N/A") then
    .none
  else if qt ∈ floatQuoteTypes then optFloat (Quote.toFloat value false)
  else if qt ∈ intQuoteTypes then optInt (Quote.toInt value)
  else if qt = .IMPL_VOL then
    match Quote.toFloat value true with
    | some q => .float (round4 q)
    | Option.none => .none
  else value

/-- A quote value object (src/utils/quote.py). The capture timestamp is
wall-clock time, read by no modelled operation, and omitted. -/
structure Quote where
  quote_type : QuoteType
  symbol : String
  value : PyVal

/-! ### src/core/error_handler.py -/

inductive RTDConnectionState where
  | DISCONNECTED | CONNECTED | CONNECTING | DISCONNECTING
deriving DecidableEq, Repr

/-- `.name` of a state member. -/
def RTDConnectionState.name : RTDConnectionState → String
  | .DISCONNECTED => "DISCONNECTED"
  | .CONNECTED => "CONNECTED"
  | .CONNECTING => "CONNECTING"
  | .DISCONNECTING => "DISCONNECTING"

/-- The RTDError subclasses of src/core/error_handler.py. -/
inductive RTDErrorClass where
  | updateError | connectionError | heartbeatError | serverError | clientError
deriving DecidableEq, Repr

/-- Python exceptions crossing the modelled code: COM errors, ValueError /
TypeError from conversions, and the RTDError family. -/
inductive PyExn where
  | comError (hresult : Nat) (text : String)
  | valueError (msg : String)
  | typeError (msg : String)
  | rtd (cls : RTDErrorClass) (msg : String)
deriving DecidableEq, Repr

/-- `str(e)` of a modelled exception (its message / COM text argument). -/
def PyExn.message : PyExn → String
  | .comError _ t => t
  | .valueError m => m
  | .typeError m => m
  | .rtd _ m => m

/-- Python `repr` of a list of strings, as an f-string interpolates
`[s.name for s in expected_states]`. -/
def pyStrListRepr (xs : List String) : String :=
  "[" ++ String.intercalate ", " (xs.map (fun s => quoteStr ++ s ++ quoteStr)) ++ "]"

/-- Outcome of the `validate_connection_state` wrapper before the wrapped
function body runs: proceed into the body, silently return Python `None`,
or raise `RTDConnectionError` with the given message. -/
inductive GuardOutcome where
  | proceed
  | silentNone
  | raiseConn (msg : String)
deriving DecidableEq, Repr

/-- `validate_connection_state` (src/core/error_handler.py lines 72-99):
the decorator checks the current state against the expected list, with the
literal special cases keyed on the wrapped function's `__name__`. -/
def validate_connection_state (expected_states : List RTDConnectionState)
    (funcName : String) (current_state : RTDConnectionState) : GuardOutcome :=
  if current_state ∈ expected_states then .proceed
  else if funcName == "heartbeat" && current_state == .DISCONNECTED then .silentNone
  else if funcName == "Disconnect" && current_state == .DISCONNECTING then .silentNone
  else if current_state == .DISCONNECTING then .silentNone
  else .raiseConn
    ("Invalid state for " ++ funcName ++ ": Expected "
      ++ pyStrListRepr (expected_states.map RTDConnectionState.name)
      ++ ", but was " ++ current_state.name)

/-- Lower-case hex digit. -/
def hexDigitChar (n : Nat) : Char :=
  if n < 10 then Char.ofNat (48 + n) else Char.ofNat (87 + n)

/-- Python format `08x` of a (non-negative) HRESULT. -/
def toHex8 (n : Nat) : String :=
  String.mk ((List.range 8).map (fun i => hexDigitChar (n / 16 ^ (7 - i) % 16)))

/-- `handle_com_error` (src/core/error_handler.py lines 49-70): the
outermost decorator converts a COM error, or any other exception escaping
the wrapped function, into the method's `error_class` with a message naming
the wrapped function. -/
def handle_com_error {α : Type} (cls : RTDErrorClass) (funcName : String) :
    Except PyExn α → Except PyExn α
  | .ok a => .ok a
  | .error (.comError h t) =>
      .error (.rtd cls ("COM error in " ++ funcName ++ ": [0x" ++ toHex8 h ++ "] " ++ t))
  | .error e =>
      .error (.rtd cls ("Unexpected error in " ++ funcName ++ ": " ++ e.message))

/-! ### src/rtd/client.py -/

/-- A provider (COM server) entry point invoked by the client. -/
inductive ProviderCall where
  | connectData (topicId : Nat)
  | disconnectData (topicId : Nat)
  | refreshData
  | heartbeat
  | serverTerminate
deriving DecidableEq, Repr

/-- The external RTD COM server: one response per entry point (a response is
either a returned Python value or a raised exception). -/
structure Provider where
  connectData : Nat → Except PyExn PyVal
  disconnectData : Nat → Except PyExn PyVal
  refreshData : Except PyExn PyVal
  heartbeat : Except PyExn PyVal
  serverTerminate : Except PyExn PyVal

/-- The mutable attributes of `RTDClient` that the modelled methods read or
write. `server` is the Python test `self.server is not None`; locks and the
wall-clock `_last_refresh_time` are omitted (see the module header). -/
structure ClientState where
  state : RTDConnectionState
  server : Bool
  topics : List (Nat × String × String)
  latest_values : List ((String × String) × Quote)
  update_notify_count : Nat
  heartbeat_interval : Nat

/-- Result of one client method call: the Python return value or raised
exception, the client state afterwards, and the provider calls issued. -/
structure MethodResult (α : Type) where
  result : Except PyExn α
  client : ClientState
  calls : List ProviderCall

/-- The `Union[str, QuoteType]` argument of subscribe/unsubscribe. -/
inductive QTArg where
  | enum (q : QuoteType)
  | str (s : String)

/-- Python `str()` of such an argument (`str(QuoteType.X)` shows the
qualified member name). -/
def QTArg.toStr : QTArg → String
  | .enum q => "QuoteType." ++ q.name
  | .str s => s

/-- `validate_quote_type` (src/utils/topic.py lines 95-114). -/
def validate_quote_type : QTArg → Except PyExn String
  | .enum q => .ok q.value
  | .str s =>
      match QuoteType.fromName (strUpper s) with
      | some q => .ok q.value
      | Option.none => .error (.valueError ("Invalid quote type: " ++ s))

/-- `find_topic_id` (src/utils/topic.py lines 25-41): first entry whose
(symbol, quote_type) matches. -/
def find_topic_id (topics : List (Nat × String × String))
    (symbol quote_type : String) : Option Nat :=
  (topics.find? (fun e => e.2.1 == symbol && e.2.2 == quote_type)).map (fun e => e.1)

namespace RTDClient

/-- The subscribe success test
`isinstance(result, list) and len(result) >= 1 and result[0]`. -/
def connectOk : PyVal → Bool
  | .list (x :: _) => x.truthy
  | _ => false

/-- `RTDClient.subscribe` (src/rtd/client.py lines 158-218) with its
decorator chain `handle_com_error(RTDClientError)` /
`validate_connection_state([CONNECTED])` applied outside-in. -/
def subscribe (p : Provider) (c : ClientState) (quote_type : QTArg)
    (symbol : String) : MethodResult (Option Nat) :=
  match validate_connection_state [.CONNECTED] "subscribe" c.state with
  | .raiseConn msg =>
      ⟨handle_com_error .clientError "subscribe" (.error (.rtd .connectionError msg)), c, []⟩
  | .silentNone => ⟨.ok Option.none, c, []⟩
  | .proceed =>
    match validate_quote_type quote_type with
    | .error e => ⟨handle_com_error .clientError "subscribe" (.error e), c, []⟩
    | .ok quote_type_str =>
      let topic_id := generate_topic_id quote_type_str symbol
      if (c.topics.lookup topic_id).isSome then
        ⟨.ok (some topic_id), c, []⟩
      else
        match p.connectData topic_id with
        | .error _ =>
            ⟨handle_com_error .clientError "subscribe"
                (.error (.rtd .clientError ("Subscription failed for " ++ symbol))),
              c, [.connectData topic_id]⟩
        | .ok result =>
          if connectOk result then
            ⟨.ok (some topic_id),
              { c with topics := c.topics ++ [(topic_id, symbol, quote_type_str)] },
              [.connectData topic_id]⟩
          else
            ⟨.ok Option.none, c, [.connectData topic_id]⟩

/-- `RTDClient.unsubscribe` (src/rtd/client.py lines 220-268) with its
decorator chain (`validate_connection_state([CONNECTED, DISCONNECTING])`). -/
def unsubscribe (p : Provider) (c : ClientState) (quote_type : QTArg)
    (symbol : String) : MethodResult (Option Bool) :=
  match validate_connection_state [.CONNECTED, .DISCONNECTING] "unsubscribe" c.state with
  | .raiseConn msg =>
      ⟨handle_com_error .clientError "unsubscribe" (.error (.rtd .connectionError msg)), c, []⟩
  | .silentNone => ⟨.ok Option.none, c, []⟩
  | .proceed =>
    match validate_quote_type quote_type with
    | .error e => ⟨handle_com_error .clientError "unsubscribe" (.error e), c, []⟩
    | .ok quote_type_str =>
      match find_topic_id c.topics symbol quote_type_str with
      | Option.none => ⟨.ok (some false), c, []⟩
      | some topic_id =>
        match p.disconnectData topic_id with
        | .error _ => ⟨.ok (some false), c, [.disconnectData topic_id]⟩
        | .ok result =>
          if pyEq result (.int 0) then
            ⟨.ok (some true),
              { c with topics := c.topics.filter (fun e => e.1 != topic_id) },
              [.disconnectData topic_id]⟩
          else ⟨.ok (some false), c, [.disconnectData topic_id]⟩

end RTDClient

namespace RTDClient

/-- Python iteration over a value (`zip` argument): lists, tuples and
strings iterate; anything else raises TypeError (`none`). -/
def pyIter : PyVal → Option (List PyVal)
  | .list xs => some xs
  | .tuple xs => some xs
  | .str s => some (s.toList.map (fun ch => PyVal.str (String.singleton ch)))
  | _ => Option.none

/-- Dictionary-key view of a topic id received from the provider
(`id in self.topics`: Python numeric equality against the integer keys). -/
def pyToKey (v : PyVal) : Option Nat :=
  match v.asNum with
  | some q => if q.den = 1 ∧ 0 ≤ q.num then some q.num.toNat else Option.none
  | Option.none => Option.none

/-- Dictionary assignment `self._latest_values[key] = quote`: replace in
place if the key exists, else append. -/
def upsertQuote (m : List ((String × String) × Quote)) (k : String × String)
    (q : Quote) : List ((String × String) × Quote) :=
  if (m.lookup k).isSome then m.map (fun kv => if kv.1 == k then (k, q) else kv)
  else m ++ [(k, q)]

/-- `RTDClient._handle_quote_update` (src/rtd/client.py lines 334-364):
drop a `None` value, otherwise store the quote under (symbol, quote_type). -/
def handle_quote_update (c : ClientState) (symbol quote_type_str : String)
    (q : Quote) : ClientState :=
  if q.value.isNone then c
  else { c with latest_values := upsertQuote c.latest_values (symbol, quote_type_str) q }

/-- The `for id, raw_value in zip(...)` loop of `refresh_topics`: known
topics get a `Quote` built and stored; a `ValueError` from the `Quote`
constructor escapes to the outer handler (second component `false`),
keeping the updates already applied. -/
def processUpdates (c : ClientState) : List (PyVal × PyVal) → ClientState × Bool
  | [] => (c, true)
  | (id, raw) :: rest =>
    match pyToKey id with
    | some k =>
      match c.topics.lookup k with
      | some sv =>
        match QuoteType.fromName (strUpper sv.2) with
        | some qtEnum =>
            processUpdates
              (handle_quote_update c sv.1 sv.2 ⟨qtEnum, sv.1, Quote.processValue qtEnum raw⟩)
              rest
        | Option.none => (c, false)
      | Option.none => processUpdates c rest
    | Option.none => processUpdates c rest

/-- The body of `RTDClient.refresh_topics` (src/rtd/client.py lines
290-331): pull `RefreshData`, vet the result shape, process the changed
topics; every failure path is absorbed by the body's `try`/`except` and
returns `False`. -/
def refresh_topics_inner (rd : Except PyExn PyVal) (c : ClientState) :
    MethodResult (Option Bool) :=
  match rd with
  | .error _ => ⟨.ok (some false), c, [.refreshData]⟩
  | .ok result =>
    if !result.truthy then ⟨.ok (some false), c, [.refreshData]⟩
    else
      match result with
      | .list [topic_count, data] =>
        if pyEq topic_count (.int 0) || !data.truthy then
          ⟨.ok (some true), c, [.refreshData]⟩
        else
          match data with
          | .tuple [topic_ids, raw_values] =>
            match pyIter topic_ids, pyIter raw_values with
            | some ids, some vals =>
                let r := processUpdates c (ids.zip vals)
                ⟨.ok (some r.2), r.1, [.refreshData]⟩
            | _, _ => ⟨.ok (some false), c, [.refreshData]⟩
          | _ => ⟨.ok (some false), c, [.refreshData]⟩
      | _ => ⟨.ok (some false), c, [.refreshData]⟩

/-- The body of `refresh_topics`, reading the provider's `RefreshData`
response. -/
def refresh_topics_body (p : Provider) (c : ClientState) : MethodResult (Option Bool) :=
  refresh_topics_inner p.refreshData c

/-- `RTDClient.refresh_topics` with its decorator chain
(`handle_com_error(RTDClientError)`, `validate_connection_state([CONNECTED])`). -/
def refresh_topics (p : Provider) (c : ClientState) : MethodResult (Option Bool) :=
  match validate_connection_state [.CONNECTED] "refresh_topics" c.state with
  | .raiseConn msg =>
      ⟨handle_com_error .clientError "refresh_topics" (.error (.rtd .connectionError msg)), c, []⟩
  | .silentNone => ⟨.ok Option.none, c, []⟩
  | .proceed =>
    let r := refresh_topics_body p c
    ⟨handle_com_error .clientError "refresh_topics" r.result, r.client, r.calls⟩

/-- `RTDClient.UpdateNotify` (src/rtd/client.py lines 271-285) with its
decorator chain (`handle_com_error(RTDUpdateError)`,
`validate_connection_state([CONNECTED])`); the body counts the
notification and delegates to the decorated `refresh_topics`. -/
def UpdateNotify (p : Provider) (c : ClientState) : MethodResult (Option Bool) :=
  match validate_connection_state [.CONNECTED] "UpdateNotify" c.state with
  | .raiseConn msg =>
      ⟨handle_com_error .updateError "UpdateNotify" (.error (.rtd .connectionError msg)), c, []⟩
  | .silentNone => ⟨.ok Option.none, c, []⟩
  | .proceed =>
    let c1 := { c with update_notify_count := c.update_notify_count + 1 }
    let r := refresh_topics p c1
    ⟨handle_com_error .updateError "UpdateNotify" r.result, r.client, r.calls⟩

/-- `RTDClient.check_heartbeat` (src/rtd/client.py lines 366-397) with its
decorator chain (`handle_com_error(RTDHeartbeatError)`,
`validate_connection_state([CONNECTED, DISCONNECTED])`); the body returns
`False` straight away while disconnected, otherwise probes the provider,
converting a probe failure into `RTDHeartbeatError`. -/
def check_heartbeat (p : Provider) (c : ClientState) : MethodResult (Option Bool) :=
  match validate_connection_state [.CONNECTED, .DISCONNECTED] "check_heartbeat" c.state with
  | .raiseConn msg =>
      ⟨handle_com_error .heartbeatError "check_heartbeat" (.error (.rtd .connectionError msg)), c, []⟩
  | .silentNone => ⟨.ok Option.none, c, []⟩
  | .proceed =>
    if c.state = .DISCONNECTED then ⟨.ok (some false), c, []⟩
    else
      match p.heartbeat with
      | .error _ =>
          ⟨handle_com_error .heartbeatError "check_heartbeat"
              (.error (.rtd .heartbeatError "Heartbeat operation failed")),
            c, [.heartbeat]⟩
      | .ok r => ⟨.ok (some (pyEq r (.int 1))), c, [.heartbeat]⟩

/-- `RTDClient.batch_unsubscribe` (src/rtd/client.py lines 545-574):
per-item best effort; an exception from one item is recorded as `False`
and never aborts the batch. -/
def batch_unsubscribe (p : Provider) (c : ClientState) :
    List (QTArg × String) → MethodResult (List ((String × String) × Bool))
  | [] => ⟨.ok [], c, []⟩
  | (qt, sym) :: rest =>
    let r := unsubscribe p c qt sym
    let success :=
      match r.result with
      | .ok (some b) => b
      | _ => false
    let tail := batch_unsubscribe p r.client rest
    ⟨(tail.result.map (fun l => ((qt.toStr, sym), success) :: l)),
      tail.client, r.calls ++ tail.calls⟩

/-- The body of `RTDClient.Disconnect` (src/rtd/client.py lines 429-480):
early return when already disconnected or disconnecting; otherwise enter
DISCONNECTING, best-effort unsubscribe all topics, clear the table,
terminate the server (its own failure is caught), release it, and land in
DISCONNECTED. -/
def Disconnect_body (p : Provider) (c : ClientState) : MethodResult Unit :=
  if c.state = .DISCONNECTED then ⟨.ok (), c, []⟩
  else if c.state = .DISCONNECTING then ⟨.ok (), c, []⟩
  else
    let c1 := { c with state := RTDConnectionState.DISCONNECTING }
    let subscriptions := c1.topics.map (fun e => (QTArg.str e.2.2, e.2.1))
    let r1 :=
      if subscriptions.isEmpty then (⟨.ok [], c1, []⟩ : MethodResult _)
      else batch_unsubscribe p c1 subscriptions
    let c2 := { r1.client with topics := [] }
    let termCalls : List ProviderCall := if c2.server then [.serverTerminate] else []
    let c3 := { c2 with server := false, state := RTDConnectionState.DISCONNECTED }
    ⟨.ok (), c3, r1.calls ++ termCalls⟩

/-- `RTDClient.Disconnect` with its decorator chain
(`handle_com_error(RTDServerError)`,
`validate_connection_state([CONNECTED, CONNECTING])`). -/
def Disconnect (p : Provider) (c : ClientState) : MethodResult Unit :=
  match validate_connection_state [.CONNECTED, .CONNECTING] "Disconnect" c.state with
  | .raiseConn msg =>
      ⟨handle_com_error .serverError "Disconnect" (.error (.rtd .connectionError msg)), c, []⟩
  | .silentNone => ⟨.ok (), c, []⟩
  | .proceed =>
    let r := Disconnect_body p c
    ⟨handle_com_error .serverError "Disconnect" r.result, r.client, r.calls⟩

end RTDClient

/-! ### src/rtd/rtd_worker.py -/

/-- A message the worker posts to the outbound queue: a flattened snapshot
dict or an error dict. -/
inductive WorkerMsg where
  | snapshot (d : List (String × PyVal))
  | errorMsg (s : String)

/-- `OptionSymbolBuilder.FUTURES_EXCHANGES`
(src/utils/option_symbol_builder.py lines 6-19). -/
def FUTURES_EXCHANGES : List (String × String) :=
  [("/ZN", "XCBT"), ("/ZB", "XCBT"), ("/ES", "XCME"), ("/NQ", "XCME"),
   ("/RTY", "XCME"), ("/YM", "XCBT"), ("/CL", "XNYM"), ("/GC", "XCEC"),
   ("/SI", "XCEC"), ("/ZC", "XCBT"), ("/ZS", "XCBT"), ("/ZW", "XCBT")]

/-- `FUTURES_EXCHANGES.get(symbol, "XCBT")`. -/
def futuresExchangeFor (s : String) : String :=
  (FUTURES_EXCHANGES.lookup s).getD "XCBT"

namespace RTDWorker

/-- The sequence of `client.subscribe` calls one retry attempt of
`RTDWorker.start` makes for a symbol (src/rtd/rtd_worker.py lines 46-70):
three greek/size fields for option symbols (leading dot), LAST with the
exchange appended for bare futures symbols (leading slash, no colon),
plain LAST otherwise. -/
def attempt_calls (symbol : String) : List (QuoteType × String) :=
  if strStartsWith symbol "." then
    [(.GAMMA, symbol), (.OPEN_INT, symbol), (.VOLUME, symbol)]
  else if strStartsWith symbol "/" && !(symbol.toList.contains colonChar) then
    [(.LAST, symbol ++ ":" ++ futuresExchangeFor symbol)]
  else [(.LAST, symbol)]

/-- Python truthiness of the `Optional[int]` a subscribe returns
(`if self.client.subscribe(...)`). -/
def optTruthy : Option Nat → Bool
  | some n => n != 0
  | Option.none => false

/-- Run one attempt's subscribe calls against the behaviour `sub`
(indexed by a global call counter): returns the new counter, the
`success_count` increments gained, and the first exception if one was
raised (which aborts the attempt). -/
def run_attempt (sub : Nat → QuoteType → String → Except PyExn (Option Nat)) :
    Nat → List (QuoteType × String) → Nat × Nat × Option PyExn
  | k, [] => (k, 0, Option.none)
  | k, (qt, sym) :: rest =>
    match sub k qt sym with
    | .error e => (k + 1, 0, some e)
    | .ok r =>
      let out := run_attempt sub (k + 1) rest
      (out.1, (if optTruthy r then 1 else 0) + out.2.1, out.2.2)

/-- The `while retry_count < 3` loop of `RTDWorker.start` for one symbol,
with `fuel` remaining attempts: an exception-free attempt breaks out; on
the final failed attempt the aggregated error line is recorded. Returns
(counter, success_count gained, error lines). -/
def worker_sub_go (sub : Nat → QuoteType → String → Except PyExn (Option Nat))
    (symbol : String) : Nat → Nat → Nat × Nat × List String
  | 0, k => (k, 0, [])
  | fuel + 1, k =>
    let a := run_attempt sub k (attempt_calls symbol)
    match a.2.2 with
    | Option.none => (a.1, a.2.1, [])
    | some e =>
      if fuel = 0 then
        (a.1, a.2.1,
          ["Failed to subscribe to " ++ symbol ++ " after 3 attempts: " ++ e.message])
      else
        let r := worker_sub_go sub symbol fuel a.1
        (r.1, a.2.1 + r.2.1, r.2.2)

/-- The subscription phase of `RTDWorker.start` over the whole symbol
list, threading the call counter. -/
def worker_subscribe_symbols (sub : Nat → QuoteType → String → Except PyExn (Option Nat)) :
    Nat → List String → Nat × Nat × List String
  | k, [] => (k, 0, [])
  | k, s :: rest =>
    let a := worker_sub_go sub s 3 k
    let r := worker_subscribe_symbols sub a.1 rest
    (r.1, a.2.1 + r.2.1, a.2.2 ++ r.2.2)

/-- `RTDWorker.start` (src/rtd/rtd_worker.py lines 20-90) from after a
successful client initialisation up to the polling loop: an empty symbol
list returns at once; accumulated subscription errors are joined into one
error message put on the queue and the worker returns; otherwise the
polling loop is entered. Returns the queue afterwards and whether the
polling loop was reached. -/
def worker_start_sub_phase (sub : Nat → QuoteType → String → Except PyExn (Option Nat))
    (all_symbols : List String) (queue : List WorkerMsg) : List WorkerMsg × Bool :=
  if all_symbols.isEmpty then (queue, false)
  else
    let r := worker_subscribe_symbols sub 0 all_symbols
    if !r.2.2.isEmpty then
      (queue ++ [.errorMsg (String.intercalate "\n" r.2.2)], false)
    else (queue, true)

/-- Dictionary assignment for the flattened snapshot. -/
def upsertVal (m : List (String × PyVal)) (k : String) (v : PyVal) :
    List (String × PyVal) :=
  if (m.lookup k).isSome then m.map (fun kv => if kv.1 == k then (k, v) else kv)
  else m ++ [(k, v)]

/-- The snapshot `current_data` built by the polling loop
(src/rtd/rtd_worker.py lines 96-100): key `symbol:quote_type`, value
`quote.value`. -/
def buildSnapshot (latest : List ((String × String) × Quote)) :
    List (String × PyVal) :=
  latest.foldl (fun acc kv => upsertVal acc (kv.1.1 ++ ":" ++ kv.1.2) kv.2.value) []

/-- Python `==` on the snapshot dicts (same keys, `==`-equal values). -/
def dictEqPy (a b : List (String × PyVal)) : Bool :=
  a.all (fun kv => match b.lookup kv.1 with
    | some v => pyEq v kv.2
    | Option.none => false) &&
  b.all (fun kv => match a.lookup kv.1 with
    | some v => pyEq v kv.2
    | Option.none => false)

/-- One iteration body of the `RTDWorker.start` polling loop
(src/rtd/rtd_worker.py lines 93-114): with a nonempty cache, build the
snapshot; if it differs from the last one sent, drain the queue
completely and put the new snapshot, remembering it as `last_data`.
Returns the queue and `last_data` afterwards. -/
def worker_poll_step (latest : List ((String × String) × Quote))
    (last_data : List (String × PyVal)) (queue : List WorkerMsg) :
    List WorkerMsg × List (String × PyVal) :=
  if latest.isEmpty then (queue, last_data)
  else
    let current_data := buildSnapshot latest
    if dictEqPy current_data last_data then (queue, last_data)
    else ([WorkerMsg.snapshot current_data], current_data)

end RTDWorker

/-! ### Concrete fixtures for witnesses and counterexamples -/

/-- A provider with benign concrete responses: subscriptions are accepted,
unsubscriptions succeed, the refresh result is a malformed string, the
heartbeat is healthy. -/
def trivProvider : Provider :=
  ⟨fun _ => .ok (.list [.bool true]), fun _ => .ok (.int 0),
   .ok (.str "bad"), .ok (.int 1), .ok PyVal.none⟩

/-- A freshly constructed client (DISCONNECTED, no server, empty tables). -/
def baseClient : ClientState := ⟨.DISCONNECTED, false, [], [], 0, 300000⟩

/-- A connected client with a live server and empty tables. -/
def connClient : ClientState := { baseClient with state := .CONNECTED, server := true }

/-- A connected client whose table already records (AAN, LAST) under its
topic id 50635. -/
def connClientAAN : ClientState := { connClient with topics := [(50635, "AAN", "LAST")] }

/-- A client captured mid-handshake. -/
def connectingClient : ClientState := { baseClient with state := .CONNECTING }

/-- A client captured mid-shutdown. -/
def disconnectingClient : ClientState :=
  { baseClient with state := .DISCONNECTING, server := true }

/-! ### The testable properties -/

/-- C6: for every (field, symbol) pair, topic-id generation is a pure
deterministic function — repeated calls agree — and the id is the MD5 hash
of `field:symbol` folded into the bounded integer space below `2^16`;
concretely (LAST, AAPL) folds to 49968, the value `hashlib.md5` yields. -/
theorem C6_topic_id_deterministic_bounded (quote_type symbol : String) :
    generate_topic_id quote_type symbol = generate_topic_id quote_type symbol ∧
    generate_topic_id quote_type symbol < 2 ^ 16 ∧
    generate_topic_id quote_type symbol
      = md5Int (utf8Bytes (quote_type ++ ":" ++ symbol)) % 2 ^ 16 ∧
    generate_topic_id "LAST" "AAPL" = 49968 :=
  ⟨rfl, Nat.mod_lt _ (by norm_num), rfl, by decide⟩

/-- C2: quote normalization maps the provider sentinels (`None`, `N/A`,
`!N/A`) and a blank value to the absent value on every quote type, never a
parse failure; `37.50` percent on the implied-volatility field becomes the
numeric 37.5 rounded at 4 decimals; and the Treasury fractional notation
109-tick-080 and 123-tick-165 become 109.25 and 123.515625 on a price
field. -/
theorem C2_quote_normalization :
    (∀ qt : QuoteType,
        Quote.processValue qt PyVal.none = PyVal.none ∧
        Quote.processValue qt (PyVal.str "N/A") = PyVal.none ∧
        Quote.processValue qt (PyVal.str "!N/A") = PyVal.none ∧
        Quote.processValue qt (PyVal.str "") = PyVal.none) ∧
    Quote.processValue .IMPL_VOL (PyVal.str "37.50%") = PyVal.float (75 / 2) ∧
    Quote.processValue .LAST (PyVal.str ("109" ++ quoteStr ++ "080"))
      = PyVal.float (437 / 4) ∧
    Quote.processValue .LAST (PyVal.str ("123" ++ quoteStr ++ "165"))
      = PyVal.float (7905 / 64) := by
  refine ⟨fun qt => ?_, ?_, ?_, ?_⟩
  · cases qt <;> exact ⟨rfl, rfl, rfl, rfl⟩
  · simp [Quote.processValue, Quote.toFloat, pyEq, PyVal.isNone, PyVal.asNum,
      floatQuoteTypes, intQuoteTypes, rstripPercentL, pctChar, quoteChar,
      pyFloatOfList, splitOnChar, digitsToNat, isDigitChar, dotChar,
      round4, roundHalfEven]
    norm_num
  · simp [Quote.processValue, Quote.toFloat, pyEq, PyVal.isNone, PyVal.asNum,
      floatQuoteTypes, intQuoteTypes, quoteStr, quoteChar, digit5,
      pyFloatOfList, splitOnChar, digitsToNat, isDigitChar, dotChar]
    norm_num
    rw [if_neg (by decide)]
    rfl
  · simp [Quote.processValue, Quote.toFloat, pyEq, PyVal.isNone, PyVal.asNum,
      floatQuoteTypes, intQuoteTypes, quoteStr, quoteChar, digit5,
      pyFloatOfList, splitOnChar, digitsToNat, isDigitChar, dotChar]
    norm_num
    rw [if_neg (by decide)]
    rfl

/-- C7: `check_heartbeat` invoked while the connection state is
DISCONNECTED returns `False` without raising, without touching the
provider and without changing the client. -/
theorem C7_heartbeat_disconnected (p : Provider) (c : ClientState)
    (h : c.state = .DISCONNECTED) :
    (RTDClient.check_heartbeat p c).result = .ok (some false) ∧
    (RTDClient.check_heartbeat p c).calls = [] ∧
    (RTDClient.check_heartbeat p c).client = c := by
  unfold RTDClient.check_heartbeat validate_connection_state
  rw [h]
  simp

/-- Witness for C7 at a concrete disconnected client. -/
theorem C7_witness :
    (RTDClient.check_heartbeat trivProvider baseClient).result = .ok (some false) ∧
    (RTDClient.check_heartbeat trivProvider baseClient).calls = [] ∧
    (RTDClient.check_heartbeat trivProvider baseClient).client = baseClient :=
  C7_heartbeat_disconnected trivProvider baseClient rfl

/-- The claim's notion of an unexpected `RefreshData` result shape: not a
two-element list, or its data part not a two-element tuple. -/
def unexpectedShape (r : PyVal) : Bool :=
  match r with
  | .list [_, data] =>
    match data with
    | .tuple [_, _] => false
    | _ => true
  | _ => true

/-- On any unexpected-shape refresh result the body of `refresh_topics`
returns `ok` (True or False, never an exception) with the client
unchanged. -/
theorem refresh_body_bad (p : Provider) (c : ClientState) (r : PyVal)
    (hr : p.refreshData = .ok r) (hshape : unexpectedShape r = true) :
    ∃ b, RTDClient.refresh_topics_body p c
      = ⟨.ok (some b), c, [.refreshData]⟩ := by
  have hb : RTDClient.refresh_topics_body p c
      = RTDClient.refresh_topics_inner (.ok r) c := by
    unfold RTDClient.refresh_topics_body; rw [hr]
  rw [hb]
  rcases r with _ | b | n | q | s | xs | xs
  · exact ⟨false, rfl⟩
  · cases b
    · exact ⟨false, rfl⟩
    · exact ⟨false, rfl⟩
  · simp only [RTDClient.refresh_topics_inner]
    split
    · exact ⟨false, rfl⟩
    · exact ⟨false, rfl⟩
  · simp only [RTDClient.refresh_topics_inner]
    split
    · exact ⟨false, rfl⟩
    · exact ⟨false, rfl⟩
  · simp only [RTDClient.refresh_topics_inner]
    split
    · exact ⟨false, rfl⟩
    · exact ⟨false, rfl⟩
  · rcases xs with _ | ⟨a, _ | ⟨b2, _ | ⟨c3, rest⟩⟩⟩
    · exact ⟨false, rfl⟩
    · exact ⟨false, rfl⟩
    · simp only [RTDClient.refresh_topics_inner]
      split
      · exact ⟨false, rfl⟩
      · split
        · exact ⟨true, rfl⟩
        · rcases b2 with _ | bb | nn | qq | ss | ys | ys
          · exact ⟨false, rfl⟩
          · exact ⟨false, rfl⟩
          · exact ⟨false, rfl⟩
          · exact ⟨false, rfl⟩
          · exact ⟨false, rfl⟩
          · exact ⟨false, rfl⟩
          · rcases ys with _ | ⟨y1, _ | ⟨y2, _ | ⟨y3, more⟩⟩⟩
            · exact ⟨false, rfl⟩
            · exact ⟨false, rfl⟩
            · simp [unexpectedShape] at hshape
            · exact ⟨false, rfl⟩
    · exact ⟨false, rfl⟩
  · simp only [RTDClient.refresh_topics_inner]
    split
    · exact ⟨false, rfl⟩
    · exact ⟨false, rfl⟩

/-- C4: when `refresh_topics` receives a provider result of unexpected
shape (not a two-element list, or its data part not a two-element tuple),
the client — its latest-value cache included — is left unchanged and the
call returns successfully (no exception), treated as no update this
cycle. -/
theorem C4_refresh_bad_shape (p : Provider) (c : ClientState) (r : PyVal)
    (hc : c.state = .CONNECTED) (hr : p.refreshData = .ok r)
    (hshape : unexpectedShape r = true) :
    (RTDClient.refresh_topics p c).client = c ∧
    ∃ b, (RTDClient.refresh_topics p c).result = .ok (some b) := by
  obtain ⟨b, hb⟩ := refresh_body_bad p c r hr hshape
  unfold RTDClient.refresh_topics
  rw [hc]
  show (RTDClient.refresh_topics_body p c).client = c ∧
    ∃ b2, handle_com_error .clientError "refresh_topics"
      (RTDClient.refresh_topics_body p c).result = .ok (some b2)
  rw [hb]
  exact ⟨rfl, b, rfl⟩

/-- Witness for C4: a connected client with a cached quote, against a
provider whose refresh result is the string `bad`. -/
theorem C4_witness :
    (RTDClient.refresh_topics trivProvider connClient).client = connClient ∧
    ∃ b, (RTDClient.refresh_topics trivProvider connClient).result
      = .ok (some b) :=
  C4_refresh_bad_shape trivProvider connClient (.str "bad") rfl rfl rfl

/-- C9: in the worker polling loop, a snapshot equal (by Python dict
equality) to the last one posted leaves the outbound queue untouched; a
different snapshot replaces the queue's whole contents, so at most one
pending snapshot remains. -/
theorem C9_snapshot_queue (latest : List ((String × String) × Quote))
    (last_data : List (String × PyVal)) (queue : List WorkerMsg)
    (hne : latest ≠ []) :
    (RTDWorker.dictEqPy (RTDWorker.buildSnapshot latest) last_data = true →
       RTDWorker.worker_poll_step latest last_data queue = (queue, last_data)) ∧
    (RTDWorker.dictEqPy (RTDWorker.buildSnapshot latest) last_data = false →
       RTDWorker.worker_poll_step latest last_data queue
         = ([.snapshot (RTDWorker.buildSnapshot latest)],
             RTDWorker.buildSnapshot latest) ∧
       (RTDWorker.worker_poll_step latest last_data queue).1.length ≤ 1) := by
  have hempty : latest.isEmpty = false := by
    cases latest with
    | nil => exact absurd rfl hne
    | cons a l => rfl
  constructor
  · intro h
    unfold RTDWorker.worker_poll_step
    simp [hempty, h]
  · intro h
    unfold RTDWorker.worker_poll_step
    simp [hempty, h]

/-- A one-entry latest-value cache for the C9 witness. -/
def latest1 : List ((String × String) × Quote) :=
  [(("SPY", "LAST"), ⟨.LAST, "SPY", .int 642⟩)]

/-- Witness for C9: with the cache of `latest1`, an equal snapshot leaves
the empty queue empty, and a differing one yields exactly the one new
snapshot. -/
theorem C9_witness :
    RTDWorker.worker_poll_step latest1 (RTDWorker.buildSnapshot latest1) []
      = ([], RTDWorker.buildSnapshot latest1) ∧
    RTDWorker.worker_poll_step latest1 [] []
      = ([.snapshot (RTDWorker.buildSnapshot latest1)],
          RTDWorker.buildSnapshot latest1) := by
  constructor
  · exact (C9_snapshot_queue latest1 (RTDWorker.buildSnapshot latest1) []
      (by simp [latest1])).1 (by rfl)
  · exact ((C9_snapshot_queue latest1 [] [] (by simp [latest1])).2 (by rfl)).1

/-- The message produced when a state violation raised by
`validate_connection_state` is re-wrapped by `handle_com_error`. -/
def wrappedStateMsg (funcName : String) (names : List String) (actual : String) : String :=
  "Unexpected error in " ++ funcName ++ ": "
    ++ ("Invalid state for " ++ funcName ++ ": Expected " ++ pyStrListRepr names
        ++ ", but was " ++ actual)

/-- C3 (amended): each state-changing method other than initialize —
subscribe, unsubscribe, refresh_topics, UpdateNotify — called while
CONNECTING raises an error whose message names the method and the expected
versus actual state; the raised class is the method's COM-wrapper class
(RTDClientError for the first three, RTDUpdateError for UpdateNotify),
wrapping the underlying connection-state violation, not RTDConnectionError
itself. -/
theorem C3_connecting_wrapped_raise (p : Provider) (c : ClientState)
    (qt : QTArg) (symbol : String) (h : c.state = .CONNECTING) :
    (∃ m, (RTDClient.subscribe p c qt symbol).result
        = .error (.rtd .clientError m) ∧
       containsStr m "subscribe" = true ∧ containsStr m "CONNECTED" = true ∧
       containsStr m "CONNECTING" = true) ∧
    (∃ m, (RTDClient.unsubscribe p c qt symbol).result
        = .error (.rtd .clientError m) ∧
       containsStr m "unsubscribe" = true ∧ containsStr m "CONNECTED" = true ∧
       containsStr m "CONNECTING" = true) ∧
    (∃ m, (RTDClient.refresh_topics p c).result
        = .error (.rtd .clientError m) ∧
       containsStr m "refresh_topics" = true ∧ containsStr m "CONNECTED" = true ∧
       containsStr m "CONNECTING" = true) ∧
    (∃ m, (RTDClient.UpdateNotify p c).result
        = .error (.rtd .updateError m) ∧
       containsStr m "UpdateNotify" = true ∧ containsStr m "CONNECTED" = true ∧
       containsStr m "CONNECTING" = true) := by
  refine ⟨⟨wrappedStateMsg "subscribe" ["CONNECTED"] "CONNECTING",
            ?_, by decide, by decide, by decide⟩,
          ⟨wrappedStateMsg "unsubscribe" ["CONNECTED", "DISCONNECTING"] "CONNECTING",
            ?_, by decide, by decide, by decide⟩,
          ⟨wrappedStateMsg "refresh_topics" ["CONNECTED"] "CONNECTING",
            ?_, by decide, by decide, by decide⟩,
          ⟨wrappedStateMsg "UpdateNotify" ["CONNECTED"] "CONNECTING",
            ?_, by decide, by decide, by decide⟩⟩
  · unfold RTDClient.subscribe
    rw [h]
    rfl
  · unfold RTDClient.unsubscribe
    rw [h]
    rfl
  · unfold RTDClient.refresh_topics
    rw [h]
    rfl
  · unfold RTDClient.UpdateNotify
    rw [h]
    rfl

/-- C3 counterexample to the claim as stated: at the concrete CONNECTING
client, subscribe raises the wrapper class RTDClientError — for no message
is the raised error an RTDConnectionError. -/
theorem C3_counterexample :
    (∃ m, (RTDClient.subscribe trivProvider connectingClient
        (QTArg.enum .LAST) "SPY").result = .error (.rtd .clientError m)) ∧
    ∀ m, (RTDClient.subscribe trivProvider connectingClient
        (QTArg.enum .LAST) "SPY").result ≠ .error (.rtd .connectionError m) := by
  constructor
  · exact ⟨_, rfl⟩
  · intro m hm
    rw [show (RTDClient.subscribe trivProvider connectingClient
        (QTArg.enum .LAST) "SPY").result
      = .error (.rtd .clientError ("Unexpected error in subscribe: "
          ++ ("Invalid state for subscribe: Expected "
              ++ pyStrListRepr ["CONNECTED"] ++ ", but was CONNECTING")))
      from rfl] at hm
    exact RTDErrorClass.noConfusion (PyExn.rtd.inj (Except.error.inj hm)).1

/-- C1 (recording the divergence): from a connected client the first
Disconnect tears the provider down exactly once (one ServerTerminate) and
lands in DISCONNECTED; the second Disconnect — state now DISCONNECTED —
raises RTDServerError wrapping the state violation instead of silently
returning, although the body's own Already-disconnected early return
(unreachable behind `validate_connection_state`) would silently no-op; a
Disconnect issued while DISCONNECTING is the silent no-op the claim
describes. -/
theorem C1_second_disconnect_raises :
    (RTDClient.Disconnect trivProvider connClientAAN).result = .ok () ∧
    (RTDClient.Disconnect trivProvider connClientAAN).calls.count .serverTerminate = 1 ∧
    (RTDClient.Disconnect trivProvider connClientAAN).client.state = .DISCONNECTED ∧
    (∃ m, (RTDClient.Disconnect trivProvider
        (RTDClient.Disconnect trivProvider connClientAAN).client).result
      = .error (.rtd .serverError m)) ∧
    (RTDClient.Disconnect trivProvider
        (RTDClient.Disconnect trivProvider connClientAAN).client).calls = [] ∧
    (RTDClient.Disconnect_body trivProvider
        (RTDClient.Disconnect trivProvider connClientAAN).client).result = .ok () ∧
    (RTDClient.Disconnect_body trivProvider
        (RTDClient.Disconnect trivProvider connClientAAN).client).client
      = (RTDClient.Disconnect trivProvider connClientAAN).client ∧
    (RTDClient.Disconnect trivProvider disconnectingClient).result = .ok () ∧
    (RTDClient.Disconnect trivProvider disconnectingClient).calls = [] :=
  ⟨rfl, rfl, rfl, ⟨_, rfl⟩, rfl, rfl, rfl, rfl, rfl⟩

/-- Looking a key up in an association list ending in that key always
succeeds. -/
theorem lookup_append_self {α β : Type} [BEq α] [LawfulBEq α]
    (l : List (α × β)) (k : α) (v : β) :
    (((l ++ [(k, v)]).lookup k).isSome) = true := by
  induction l with
  | nil => simp [List.lookup]
  | cons a l ih =>
    rcases a with ⟨k2, v2⟩
    rw [List.cons_append, List.lookup]
    split
    · rfl
    · exact ih

/-- The subscribe test for a ConnectData call. -/
def ProviderCall.isConnectData : ProviderCall → Bool
  | .connectData _ => true
  | _ => false

/-- On a connected client with a valid quote type, `subscribe` reduces to
the body's branch structure. -/
theorem subscribe_connected_eq (p : Provider) (c : ClientState) (qt : QTArg)
    (symbol : String) (qts : String) (hc : c.state = .CONNECTED)
    (hv : validate_quote_type qt = .ok qts) :
    RTDClient.subscribe p c qt symbol =
      (if ((c.topics.lookup (generate_topic_id qts symbol)).isSome) = true then
        ⟨.ok (some (generate_topic_id qts symbol)), c, []⟩
      else
        match p.connectData (generate_topic_id qts symbol) with
        | .error _ =>
            ⟨.error (.rtd .clientError ("Unexpected error in subscribe: "
                ++ ("Subscription failed for " ++ symbol))),
              c, [.connectData (generate_topic_id qts symbol)]⟩
        | .ok result =>
          if RTDClient.connectOk result then
            ⟨.ok (some (generate_topic_id qts symbol)),
              { c with topics :=
                  c.topics ++ [(generate_topic_id qts symbol, symbol, qts)] },
              [.connectData (generate_topic_id qts symbol)]⟩
          else ⟨.ok Option.none, c, [.connectData (generate_topic_id qts symbol)]⟩) := by
  unfold RTDClient.subscribe
  rw [hc, hv]
  rfl

/-- Re-subscribing a pair whose topic id is already in the table returns
the existing id at once: no provider call, no state change. -/
theorem subscribe_already (p : Provider) (c : ClientState) (qt : QTArg)
    (symbol : String) (qts : String) (hc : c.state = .CONNECTED)
    (hv : validate_quote_type qt = .ok qts)
    (hin : ((c.topics.lookup (generate_topic_id qts symbol)).isSome) = true) :
    RTDClient.subscribe p c qt symbol
      = ⟨.ok (some (generate_topic_id qts symbol)), c, []⟩ := by
  rw [subscribe_connected_eq p c qt symbol qts hc hv, if_pos hin]

/-- On a connected client with a valid quote type, an id not yet in the
table, and a provider acknowledging the ConnectData call, `subscribe`
returns the id, records the pair and issues exactly that one call. -/
theorem subscribe_new_ok (p : Provider) (c : ClientState) (qt : QTArg)
    (symbol : String) (qts : String) (result : PyVal)
    (hc : c.state = .CONNECTED) (hv : validate_quote_type qt = .ok qts)
    (hlook : ((c.topics.lookup (generate_topic_id qts symbol)).isSome) = false)
    (hcd : p.connectData (generate_topic_id qts symbol) = .ok result)
    (hok : RTDClient.connectOk result = true) :
    RTDClient.subscribe p c qt symbol
      = ⟨.ok (some (generate_topic_id qts symbol)),
          { c with topics := c.topics
              ++ [(generate_topic_id qts symbol, symbol, qts)] },
          [.connectData (generate_topic_id qts symbol)]⟩ := by
  rw [subscribe_connected_eq p c qt symbol qts hc hv,
    if_neg (by simp [hlook]), hcd]
  simp [hok]

/-- C5: when a first subscribe for (field, symbol) succeeded with topic id
`tid`, a second subscribe for the same pair returns the same `tid`, issues
no further provider call, leaves the client unchanged, and across both
calls at most one ConnectData was issued. -/
theorem C5_subscribe_idempotent (p p2 : Provider) (c : ClientState)
    (qt : QTArg) (symbol : String) (tid : Nat)
    (h1 : (RTDClient.subscribe p c qt symbol).result = .ok (some tid)) :
    (RTDClient.subscribe p2 (RTDClient.subscribe p c qt symbol).client
        qt symbol).result = .ok (some tid) ∧
    (RTDClient.subscribe p2 (RTDClient.subscribe p c qt symbol).client
        qt symbol).calls = [] ∧
    (RTDClient.subscribe p2 (RTDClient.subscribe p c qt symbol).client
        qt symbol).client = (RTDClient.subscribe p c qt symbol).client ∧
    ((RTDClient.subscribe p c qt symbol).calls
        ++ (RTDClient.subscribe p2 (RTDClient.subscribe p c qt symbol).client
              qt symbol).calls).countP ProviderCall.isConnectData ≤ 1 := by
  cases hcs : c.state with
  | DISCONNECTED =>
    exfalso
    have hx : RTDClient.subscribe p c qt symbol
        = ⟨.error (.rtd .clientError
            (wrappedStateMsg "subscribe" ["CONNECTED"] "DISCONNECTED")), c, []⟩ := by
      unfold RTDClient.subscribe
      rw [hcs]
      rfl
    rw [hx] at h1
    exact Except.noConfusion h1
  | CONNECTING =>
    exfalso
    have hx : RTDClient.subscribe p c qt symbol
        = ⟨.error (.rtd .clientError
            (wrappedStateMsg "subscribe" ["CONNECTED"] "CONNECTING")), c, []⟩ := by
      unfold RTDClient.subscribe
      rw [hcs]
      rfl
    rw [hx] at h1
    exact Except.noConfusion h1
  | DISCONNECTING =>
    exfalso
    have hx : RTDClient.subscribe p c qt symbol
        = ⟨.ok Option.none, c, []⟩ := by
      unfold RTDClient.subscribe
      rw [hcs]
      rfl
    rw [hx] at h1
    exact Option.noConfusion (Except.ok.inj h1)
  | CONNECTED =>
    cases hv : validate_quote_type qt with
    | error e =>
      exfalso
      have hx : (RTDClient.subscribe p c qt symbol).result
          = handle_com_error .clientError "subscribe" (.error e) := by
        unfold RTDClient.subscribe
        rw [hcs, hv]
        rfl
      rw [hx] at h1
      cases e <;> exact Except.noConfusion h1
    | ok qts =>
      by_cases hlook : ((c.topics.lookup (generate_topic_id qts symbol)).isSome) = true
      · have hfirst := subscribe_already p c qt symbol qts hcs hv hlook
        rw [hfirst] at h1
        have htid : generate_topic_id qts symbol = tid :=
          Option.some.inj (Except.ok.inj h1)
        rw [hfirst]
        rw [show (⟨.ok (some (generate_topic_id qts symbol)), c, []⟩
            : MethodResult (Option Nat)).client = c from rfl]
        rw [subscribe_already p2 c qt symbol qts hcs hv hlook, htid]
        exact ⟨rfl, rfl, rfl, by simp⟩
      · have hlook2 : ((c.topics.lookup (generate_topic_id qts symbol)).isSome) = false :=
          Bool.eq_false_iff.mpr hlook
        cases hcd : p.connectData (generate_topic_id qts symbol) with
        | error e2 =>
          exfalso
          rw [subscribe_connected_eq p c qt symbol qts hcs hv,
            if_neg (by simp [hlook2]), hcd] at h1
          exact Except.noConfusion h1
        | ok result =>
          by_cases hok : RTDClient.connectOk result = true
          · have hfirst := subscribe_new_ok p c qt symbol qts result hcs hv hlook2 hcd hok
            rw [hfirst] at h1
            have htid : generate_topic_id qts symbol = tid :=
              Option.some.inj (Except.ok.inj h1)
            have hin1 : ((({ c with topics := c.topics
                    ++ [(generate_topic_id qts symbol, symbol, qts)] }
                  : ClientState).topics.lookup
                    (generate_topic_id qts symbol)).isSome) = true :=
              lookup_append_self c.topics (generate_topic_id qts symbol) (symbol, qts)
            have h2 := subscribe_already p2
              { c with topics := c.topics
                  ++ [(generate_topic_id qts symbol, symbol, qts)] }
              qt symbol qts hcs hv hin1
            rw [hfirst]
            rw [show (⟨.ok (some (generate_topic_id qts symbol)),
                { c with topics := c.topics
                    ++ [(generate_topic_id qts symbol, symbol, qts)] },
                [.connectData (generate_topic_id qts symbol)]⟩
              : MethodResult (Option Nat)).client
              = { c with topics := c.topics
                  ++ [(generate_topic_id qts symbol, symbol, qts)] } from rfl]
            rw [h2, htid]
            refine ⟨rfl, rfl, rfl, ?_⟩
            simp [List.countP_cons, ProviderCall.isConnectData]
          · exfalso
            have hok2 : RTDClient.connectOk result = false := Bool.eq_false_iff.mpr hok
            rw [subscribe_connected_eq p c qt symbol qts hcs hv,
              if_neg (by simp [hlook2]), hcd] at h1
            simp [hok2] at h1

/-- Witness for C5: a concrete connected client and acknowledging provider,
subscribing (LAST, SPY) twice. -/
theorem C5_witness :
    (RTDClient.subscribe trivProvider
        (RTDClient.subscribe trivProvider connClient (QTArg.enum .LAST) "SPY").client
        (QTArg.enum .LAST) "SPY").result
      = .ok (some (generate_topic_id "LAST" "SPY")) ∧
    (RTDClient.subscribe trivProvider
        (RTDClient.subscribe trivProvider connClient (QTArg.enum .LAST) "SPY").client
        (QTArg.enum .LAST) "SPY").calls = [] ∧
    (RTDClient.subscribe trivProvider
        (RTDClient.subscribe trivProvider connClient (QTArg.enum .LAST) "SPY").client
        (QTArg.enum .LAST) "SPY").client
      = (RTDClient.subscribe trivProvider connClient (QTArg.enum .LAST) "SPY").client ∧
    ((RTDClient.subscribe trivProvider connClient (QTArg.enum .LAST) "SPY").calls
        ++ (RTDClient.subscribe trivProvider
              (RTDClient.subscribe trivProvider connClient (QTArg.enum .LAST) "SPY").client
              (QTArg.enum .LAST) "SPY").calls).countP ProviderCall.isConnectData ≤ 1 :=
  C5_subscribe_idempotent trivProvider trivProvider connClient (QTArg.enum .LAST) "SPY"
    (generate_topic_id "LAST" "SPY") rfl

/-- C10: if two distinct (field, symbol) pairs hash to the same topic id
and the first pair is recorded in the table under that id, subscribing the
second pair returns the existing id with no ConnectData call and no table
change, so the table never records the colliding pair. -/
theorem C10_collision_short_circuit (p : Provider) (c : ClientState)
    (qt : QTArg) (symbol qts symbol2 qts2 : String)
    (hc : c.state = .CONNECTED)
    (hv : validate_quote_type qt = .ok qts)
    (_hcol : generate_topic_id qts2 symbol2 = generate_topic_id qts symbol)
    (_hne : (symbol2, qts2) ≠ (symbol, qts))
    (hin : c.topics.lookup (generate_topic_id qts symbol) = some (symbol2, qts2)) :
    RTDClient.subscribe p c qt symbol
      = ⟨.ok (some (generate_topic_id qts symbol)), c, []⟩ :=
  subscribe_already p c qt symbol qts hc hv (by rw [hin]; rfl)

/-- Witness for C10: the real MD5 collision (LAST, AAN) / (LAST, ANY) —
both strings fold to topic id 50635 — with (AAN, LAST) already recorded. -/
theorem C10_witness :
    RTDClient.subscribe trivProvider connClientAAN (QTArg.enum .LAST) "ANY"
      = ⟨.ok (some (generate_topic_id "LAST" "ANY")), connClientAAN, []⟩ :=
  C10_collision_short_circuit trivProvider connClientAAN (QTArg.enum .LAST)
    "ANY" "LAST" "AAN" "LAST" rfl rfl (by decide) (by decide) (by decide)

/-- Every list is an initial segment of itself. -/
theorem leadMatch_refl (l : List Char) : leadMatch l l = true := by
  induction l with
  | nil => rfl
  | cons a as ih => simp [leadMatch, ih]

/-- A list is an initial segment of itself followed by anything. -/
theorem leadMatch_self_append (needle tail : List Char) :
    leadMatch needle (needle ++ tail) = true := by
  induction needle with
  | nil => rfl
  | cons a as ih => simp [leadMatch, ih]

/-- `leadMatch` survives extending the haystack on the right. -/
theorem leadMatch_append_right (needle hay tail : List Char)
    (h : leadMatch needle hay = true) :
    leadMatch needle (hay ++ tail) = true := by
  induction needle generalizing hay with
  | nil => rfl
  | cons a as ih =>
    cases hay with
    | nil => exact absurd h (by simp [leadMatch])
    | cons b bs =>
      simp only [leadMatch, Bool.and_eq_true] at h
      simp [leadMatch, h.1, ih bs h.2]

/-- The empty needle occurs in every haystack. -/
theorem containsSub_nil (hay : List Char) : containsSub hay [] = true := by
  cases hay <;> simp [containsSub, leadMatch]

/-- A needle matching at the front occurs. -/
theorem containsSub_of_leadMatch (hay needle : List Char)
    (h : leadMatch needle hay = true) : containsSub hay needle = true := by
  cases hay with
  | nil =>
    cases needle with
    | nil => rfl
    | cons a as => exact absurd h (by simp [leadMatch])
  | cons b bs => simp [containsSub, h]

/-- An occurrence in the right part survives prepending. -/
theorem containsSub_append_right (xs ys needle : List Char)
    (h : containsSub ys needle = true) :
    containsSub (xs ++ ys) needle = true := by
  induction xs with
  | nil => exact h
  | cons a as ih => simp [containsSub, ih]

/-- An occurrence in the left part survives appending. -/
theorem containsSub_append_left (xs ys needle : List Char)
    (h : containsSub xs needle = true) :
    containsSub (xs ++ ys) needle = true := by
  induction xs with
  | nil =>
    simp only [containsSub, List.isEmpty_iff] at h
    subst h
    exact containsSub_nil ys
  | cons a as ih =>
    simp only [containsSub, Bool.or_eq_true] at h ⊢
    rcases h with h | h
    · exact Or.inl (leadMatch_append_right needle (a :: as) ys h)
    · exact Or.inr (ih h)

/-- `run_attempt` aborts at once when the first subscribe call raises. -/
theorem run_attempt_first_fail
    (sub : Nat → QuoteType → String → Except PyExn (Option Nat))
    (k : Nat) (qt : QuoteType) (sym : String) (rest : List (QuoteType × String))
    (e : PyExn) (h : sub k qt sym = .error e) :
    RTDWorker.run_attempt sub k ((qt, sym) :: rest) = (k + 1, 0, some e) := by
  unfold RTDWorker.run_attempt
  rw [h]

/-- Every symbol shape produces at least one subscribe call per attempt. -/
theorem attempt_calls_ne_nil (symbol : String) :
    RTDWorker.attempt_calls symbol ≠ [] := by
  unfold RTDWorker.attempt_calls
  split
  · simp
  · split
    · simp
    · simp

/-- C8: when every subscription attempt raises, `Worker.start` with the
one-symbol list posts exactly one error message — the queue grows by one
entry whose text names the symbol and the phrase `3 attempts` — and the
polling loop is not entered. -/
theorem C8_worker_retries_exhausted
    (sub : Nat → QuoteType → String → Except PyExn (Option Nat))
    (es : Nat → PyExn) (s : String) (queue : List WorkerMsg)
    (hfail : ∀ k qt sym, sub k qt sym = .error (es k)) :
    RTDWorker.worker_start_sub_phase sub [s] queue
      = (queue ++ [.errorMsg ("Failed to subscribe to " ++ s
          ++ " after 3 attempts: " ++ (es 2).message)], false) ∧
    containsStr ("Failed to subscribe to " ++ s ++ " after 3 attempts: "
        ++ (es 2).message) s = true ∧
    containsStr ("Failed to subscribe to " ++ s ++ " after 3 attempts: "
        ++ (es 2).message) "3 attempts" = true := by
  obtain ⟨qt1, sym1, rest, hAC⟩ :
      ∃ q s1 r, RTDWorker.attempt_calls s = (q, s1) :: r := by
    rcases hx : RTDWorker.attempt_calls s with _ | ⟨⟨q, s1⟩, r⟩
    · exact absurd hx (attempt_calls_ne_nil s)
    · exact ⟨q, s1, r, rfl⟩
  have hra : ∀ k, RTDWorker.run_attempt sub k (RTDWorker.attempt_calls s)
      = (k + 1, 0, some (es k)) := by
    intro k
    rw [hAC]
    exact run_attempt_first_fail sub k qt1 sym1 rest (es k) (hfail k qt1 sym1)
  have hgo : RTDWorker.worker_sub_go sub s 3 0
      = (3, 0, ["Failed to subscribe to " ++ s ++ " after 3 attempts: "
          ++ (es 2).message]) := by
    simp only [RTDWorker.worker_sub_go, hra]
    norm_num
  have hsyms : RTDWorker.worker_subscribe_symbols sub 0 [s]
      = (3, 0, ["Failed to subscribe to " ++ s ++ " after 3 attempts: "
          ++ (es 2).message]) := by
    simp only [RTDWorker.worker_subscribe_symbols, hgo]
    norm_num
  refine ⟨?_, ?_, ?_⟩
  · unfold RTDWorker.worker_start_sub_phase
    rw [hsyms]
    rfl
  · unfold containsStr
    rw [show ("Failed to subscribe to " ++ s ++ " after 3 attempts: "
        ++ (es 2).message).toList
      = "Failed to subscribe to ".toList
          ++ (s.toList ++ (" after 3 attempts: ".toList ++ (es 2).message.toList))
      from by simp [String.toList, String.data_append]]
    exact containsSub_append_right _ _ _
      (containsSub_append_left _ _ _
        (containsSub_of_leadMatch _ _ (leadMatch_refl s.toList)))
  · unfold containsStr
    rw [show ("Failed to subscribe to " ++ s ++ " after 3 attempts: "
        ++ (es 2).message).toList
      = ("Failed to subscribe to ".toList ++ s.toList)
          ++ (" after 3 attempts: ".toList ++ (es 2).message.toList)
      from by simp [String.toList, String.data_append]]
    exact containsSub_append_right _ _ _
      (containsSub_append_left _ _ _ (by decide))

/-- Witness for C8: the symbol ZZZZ against a behaviour that always raises
RTDClientError. -/
theorem C8_witness :
    RTDWorker.worker_start_sub_phase
        (fun _ _ _ => .error (.rtd .clientError "Subscription failed for ZZZZ"))
        ["ZZZZ"] []
      = ([] ++ [.errorMsg ("Failed to subscribe to " ++ "ZZZZ"
          ++ " after 3 attempts: "
          ++ (PyExn.rtd .clientError "Subscription failed for ZZZZ").message)],
         false) ∧
    containsStr ("Failed to subscribe to " ++ "ZZZZ" ++ " after 3 attempts: "
        ++ (PyExn.rtd .clientError "Subscription failed for ZZZZ").message)
      "ZZZZ" = true ∧
    containsStr ("Failed to subscribe to " ++ "ZZZZ" ++ " after 3 attempts: "
        ++ (PyExn.rtd .clientError "Subscription failed for ZZZZ").message)
      "3 attempts" = true :=
  C8_worker_retries_exhausted
    (fun _ _ _ => .error (.rtd .clientError "Subscription failed for ZZZZ"))
    (fun _ => .rtd .clientError "Subscription failed for ZZZZ") "ZZZZ" []
    (fun _ _ _ => rfl)

/-- Witness for C3 (amended) at the concrete CONNECTING client. -/
theorem C3_witness :
    (∃ m, (RTDClient.subscribe trivProvider connectingClient
        (QTArg.enum .LAST) "SPY").result = .error (.rtd .clientError m) ∧
       containsStr m "subscribe" = true ∧ containsStr m "CONNECTED" = true ∧
       containsStr m "CONNECTING" = true) ∧
    (∃ m, (RTDClient.unsubscribe trivProvider connectingClient
        (QTArg.enum .LAST) "SPY").result = .error (.rtd .clientError m) ∧
       containsStr m "unsubscribe" = true ∧ containsStr m "CONNECTED" = true ∧
       containsStr m "CONNECTING" = true) ∧
    (∃ m, (RTDClient.refresh_topics trivProvider connectingClient).result
        = .error (.rtd .clientError m) ∧
       containsStr m "refresh_topics" = true ∧ containsStr m "CONNECTED" = true ∧
       containsStr m "CONNECTING" = true) ∧
    (∃ m, (RTDClient.UpdateNotify trivProvider connectingClient).result
        = .error (.rtd .updateError m) ∧
       containsStr m "UpdateNotify" = true ∧ containsStr m "CONNECTED" = true ∧
       containsStr m "CONNECTING" = true) :=
  C3_connecting_wrapped_raise trivProvider connectingClient (QTArg.enum .LAST) "SPY" rfl
